import Mathlib

/-!
Verification of the `georust/osm` data model (`src/types.rs`).

Embedding conventions:
* Rust `i32`/`i64` fields are embedded as `Int`; the claims only compare
  ids and coordinates, no wrapping arithmetic occurs.
* Rust `f64` is embedded as an exact value: `F64.finite q` carries the
  rational value a finite double denotes, and `F64.nan` / `F64.inf` /
  `F64.neginf` cover the non-finite values.  The one arithmetic operation
  the source performs on doubles, multiplication by the exact constant
  `1e7`, is embedded as exact rational multiplication; every concrete
  coordinate appearing below was checked to make the binary64 product and
  the rational product truncate to the same integer.
* The Rust cast `as i32` on a float truncates toward zero and saturates at
  the `i32` bounds, with NaN mapped to 0 (documented Rust semantics); it is
  embedded as `castF64toI32`.
* `chrono::DateTime<Utc>` is embedded as the instant on the timeline
  (an `Int`); the claims only ever compare timestamps for equality.
* `Vec<T>` is embedded as `List T`, `HashMap<String, String>` (the tag
  mapping handed to `is_area`) as an association list `List (String × String)`.
-/

/-- Largest value of the Rust type `i32`. -/
def i32Max : Int := 2147483647

/-- Smallest value of the Rust type `i32`. -/
def i32Min : Int := -2147483648

/-- A binary64 floating-point value, embedded by the exact value it denotes. -/
inductive F64 where
  | nan : F64
  | inf : F64
  | neginf : F64
  | finite (val : ℚ) : F64
deriving DecidableEq

/-- Truncation of a rational toward zero, the rounding used by Rust
float-to-integer `as` casts. -/
def truncQ (q : ℚ) : Int :=
  if 0 ≤ q then ⌊q⌋ else ⌈q⌉

/-- The Rust cast `as i32` applied to an `f64`: truncate toward zero,
saturate at the `i32` bounds, send NaN to 0. -/
def castF64toI32 : F64 → Int
  | .nan => 0
  | .inf => i32Max
  | .neginf => i32Min
  | .finite q => max i32Min (min i32Max (truncQ q))

/-- Multiplication of an `f64` by the constant `1e7` (exactly representable
in binary64), embedded as exact rational multiplication. -/
def mulTenMillion : F64 → F64
  | .nan => .nan
  | .inf => .inf
  | .neginf => .neginf
  | .finite q => .finite (q * 10000000)

/-- `ElementInfo` (src/types.rs lines 12-22): the attributes common to all
OSM element types. -/
structure ElementInfo where
  id : Int
  user : Option String
  uid : Option Int
  timestamp : Option Int
  visible : Option Bool
  version : Option Int
  changeset : Option Int
  tags : List String
deriving DecidableEq, Repr

/-- `ElementInfo::create` (src/types.rs lines 25-36): an `ElementInfo` with
the given id, every optional field absent, and no tags. -/
def ElementInfo.create (id : Int) : ElementInfo :=
  { id := id
    user := none
    uid := none
    timestamp := none
    visible := none
    version := none
    changeset := none
    tags := [] }

/-- `Node` (src/types.rs lines 48-52): latitude and longitude stored as
fixed-point `i32` values. -/
structure Node where
  element_info : ElementInfo
  lat : Int
  lon : Int
deriving DecidableEq, Repr

/-- `Node::coord_ftoi` (src/types.rs lines 57-59): `(coord * 1e7) as i32`. -/
def Node.coord_ftoi (coord : F64) : Int :=
  castF64toI32 (mulTenMillion coord)

/-- `Node::coord_itof` (src/types.rs lines 63-65): `(coord as f64) / 1e7`,
exact in binary64 hence embedded as exact rational division. -/
def Node.coord_itof (coord : Int) : ℚ :=
  (coord : ℚ) / 10000000

/-- `geo_types::Point` with `f64` coordinates, embedded with exact values. -/
structure Point where
  x : ℚ
  y : ℚ
deriving DecidableEq, Repr

/-- `Point::new(x, y)`. -/
def Point.new (x y : ℚ) : Point :=
  { x := x, y := y }

/-- `impl From<Node> for Point<f64>` (src/types.rs lines 68-72):
`Point::new(Node::coord_itof(other.lon), Node::coord_itof(other.lat))`. -/
def Point.fromNode (other : Node) : Point :=
  Point.new (Node.coord_itof other.lon) (Node.coord_itof other.lat)

/-- `impl PartialEq for Node`, method `eq` (src/types.rs lines 74-80),
embedded exactly as written in the source, including the comparison of
`self.lon` with itself on the last conjunct. -/
def Node.eq (self other : Node) : Bool :=
  (self.element_info.id == other.element_info.id)
    && (self.lat == other.lat)
    && (self.lon == self.lon)

/-- `Way` (src/types.rs lines 88-91): an ordered list of node ids. -/
structure Way where
  element_info : ElementInfo
  nodes : List Int

/-- Modelled from the spec: `Way::is_closed` is described by the spec but
not implemented under `src/`.  Spec: true iff the node-id sequence is
non-empty and its first id equals its last id. -/
def Way.is_closed (w : Way) : Bool :=
  match w.nodes with
  | [] => false
  | x :: xs => x == xs.getLastD x

/-- Key lookup in the tag mapping handed to `is_area`. -/
def containsKey (tags : List (String × String)) (k : String) : Bool :=
  tags.any (fun p => p.1 == k)

/-- Modelled from the spec: `Way::is_area` is described by the spec but not
implemented under `src/`.  Spec: true iff `is_closed()` and the tags
contain neither a `highway` nor a `barrier` key. -/
def Way.is_area (w : Way) (tags : List (String × String)) : Bool :=
  w.is_closed && !(containsKey tags "highway") && !(containsKey tags "barrier")

/-- `RelationMemberType` (src/types.rs lines 93-97). -/
inductive RelationMemberType where
  | node : RelationMemberType
  | way : RelationMemberType
  | relation : RelationMemberType
deriving DecidableEq, Repr

/-- `RelationMember` (src/types.rs lines 102-106). -/
structure RelationMember where
  member_type : RelationMemberType
  reference : Int
  role : String
deriving DecidableEq, Repr

/-- `Relation` (src/types.rs lines 112-115): members stored in a `Vec`,
in the order supplied at construction. -/
structure Relation where
  element_info : ElementInfo
  members : List RelationMember
deriving DecidableEq

/-- Modelled from the spec: `ElementInfo` derives no `PartialEq` under
`src/`; the spec defines its equality as field-wise equality of every
field, an absent optional field distinct from any present one. -/
def ElementInfo.eqv (a b : ElementInfo) : Bool :=
  (a.id == b.id) && (a.user == b.user) && (a.uid == b.uid)
    && (a.timestamp == b.timestamp) && (a.visible == b.visible)
    && (a.version == b.version) && (a.changeset == b.changeset)
    && (a.tags == b.tags)

/-- The spec's "rounded to 7 decimal places": round the degree value times
`10^7` to the nearest integer, then divide back. -/
def roundTo7 (d : ℚ) : ℚ :=
  (round (d * 10000000) : ℚ) / 10000000

/-- C1: counterexample to the claimed Node equality.  The source's
`PartialEq for Node` compares `self.lon` with itself on its third conjunct,
so two nodes that agree on id and lat but differ in lon are reported equal,
where the claim says a pair differing only in lon is unequal. -/
theorem node_eq_ignores_lon :
    Node.eq { element_info := ElementInfo.create 1, lat := 0, lon := 0 }
        { element_info := ElementInfo.create 1, lat := 0, lon := 999 } = true
      ∧ ({ element_info := ElementInfo.create 1, lat := 0, lon := 0 } : Node).lon
          ≠ ({ element_info := ElementInfo.create 1, lat := 0, lon := 999 } : Node).lon := by
  decide

/-- C2: the encoder truncates instead of rounding.  At input 6e-8 the
product with 1e7 is 0.6 (exactly, in binary64 as in ℚ): rounding to the
nearest integer as claimed gives 1, while the code's `as i32` cast
truncates toward zero and yields 0. -/
theorem coord_ftoi_truncates_not_rounds :
    Node.coord_ftoi (.finite 0.00000006) = 0
      ∧ round ((0.00000006 : ℚ) * 10000000) = 1 := by
  constructor
  · norm_num [Node.coord_ftoi, castF64toI32, mulTenMillion, truncQ, i32Max, i32Min,
      min_def, max_def]
  · norm_num [round_eq]

/-- C3: the decode-encode roundtrip truncates to 7 decimal places instead
of rounding.  At input 6e-8 the roundtrip yields 0, while the input rounded
to 7 decimal places is 1e-7. -/
theorem coord_roundtrip_truncates :
    Node.coord_itof (Node.coord_ftoi (.finite 0.00000006)) = 0
      ∧ roundTo7 0.00000006 = 0.0000001 := by
  constructor
  · norm_num [Node.coord_itof, Node.coord_ftoi, castF64toI32, mulTenMillion, truncQ,
      i32Max, i32Min, min_def, max_def, Int.ceil_neg]
  · norm_num [roundTo7, round_eq]

/-- C4: the codec meets the concrete test vectors: encoding 51.509865
gives 515098650, decoding 515098650 gives 51.509865, encoding -0.118092
gives -1180920, and decoding -1180920 gives -0.118092. -/
theorem coord_codec_test_vectors :
    Node.coord_ftoi (.finite 51.509865) = 515098650
      ∧ Node.coord_itof 515098650 = 51.509865
      ∧ Node.coord_ftoi (.finite (-0.118092)) = -1180920
      ∧ Node.coord_itof (-1180920) = -0.118092 := by
  refine ⟨?_, ?_, ?_, ?_⟩ <;>
    norm_num [Node.coord_ftoi, Node.coord_itof, castF64toI32, mulTenMillion, truncQ,
      i32Max, i32Min, min_def, max_def, Int.ceil_neg]

/-- C5: converting a Node to a geometric point puts the decoded longitude
first (as x) and the decoded latitude second (as y), the opposite axis
order from the stored (lat, lon) fields; in particular the node at
lat 51.509865, lon -0.118092 maps to the point (-0.118092, 51.509865). -/
theorem from_node_swaps_axes :
    (∀ n : Node,
        Point.fromNode n = { x := Node.coord_itof n.lon, y := Node.coord_itof n.lat })
      ∧ Point.fromNode
          { element_info := ElementInfo.create 1
            lat := Node.coord_ftoi (.finite 51.509865)
            lon := Node.coord_ftoi (.finite (-0.118092)) }
          = { x := -0.118092, y := 51.509865 } := by
  constructor
  · intro n
    rfl
  · norm_num [Point.fromNode, Point.new, Node.coord_itof, Node.coord_ftoi, castF64toI32,
      mulTenMillion, truncQ, i32Max, i32Min, min_def, max_def, Int.ceil_neg, Point.mk.injEq]

/-- The optional last element of a non-empty list, expressed through
`getLastD` of its tail with the head as default. -/
theorem getLast?_cons_eq_getLastD {α : Type} (x : α) (xs : List α) :
    (x :: xs).getLast? = some (xs.getLastD x) := by
  induction xs generalizing x with
  | nil => rfl
  | cons y ys ih => rw [List.getLast?_cons_cons, ih, List.getLastD_cons]

/-- C6: a Way is closed exactly when its node-id sequence is non-empty and
its first id equals its last id; the sequence [1,2,3,1] is closed and
[1,2,3] is not. -/
theorem is_closed_iff_first_eq_last :
    (∀ w : Way, w.is_closed = true ↔ (w.nodes ≠ [] ∧ w.nodes.head? = w.nodes.getLast?))
      ∧ Way.is_closed { element_info := ElementInfo.create 1, nodes := [1, 2, 3, 1] } = true
      ∧ Way.is_closed { element_info := ElementInfo.create 2, nodes := [1, 2, 3] } = false := by
  refine ⟨fun w => ?_, by decide, by decide⟩
  cases h : w.nodes with
  | nil => simp [Way.is_closed, h]
  | cons x xs =>
      simp [Way.is_closed, h, getLast?_cons_eq_getLastD, beq_iff_eq]

/-- C7: a Way together with a tag mapping is an area exactly when the Way
is closed and the tags contain neither a `highway` nor a `barrier` key;
a closed Way tagged highway=primary is not an area, a closed Way with an
unrelated tag is. -/
theorem is_area_iff_closed_without_highway_barrier :
    (∀ (w : Way) (tags : List (String × String)),
        w.is_area tags = true
          ↔ (w.is_closed = true ∧ containsKey tags "highway" = false
              ∧ containsKey tags "barrier" = false))
      ∧ Way.is_area { element_info := ElementInfo.create 1, nodes := [1, 2, 1] }
          [("highway", "primary")] = false
      ∧ Way.is_area { element_info := ElementInfo.create 1, nodes := [1, 2, 1] }
          [("name", "Hyde Park")] = true := by
  refine ⟨fun w tags => ?_, by decide, by decide⟩
  simp [Way.is_area, Bool.and_eq_true, Bool.not_eq_true', and_assoc]

/-- C8: ElementInfo equality is field-wise equality of every field, and an
absent optional field is distinct from any present one: a record with
visible = none is unequal to the same record with visible = some true. -/
theorem element_info_eqv_fieldwise :
    (∀ a b : ElementInfo, ElementInfo.eqv a b = true ↔ a = b)
      ∧ ElementInfo.eqv { ElementInfo.create 1 with visible := none }
          { ElementInfo.create 1 with visible := some true } = false := by
  refine ⟨fun a b => ?_, by decide⟩
  cases a
  cases b
  simp only [ElementInfo.eqv, ElementInfo.mk.injEq, Bool.and_eq_true, beq_iff_eq]
  tauto

/-- C9: a Relation holds exactly the member sequence supplied at
construction, in the same order, with no deduplication or sorting; in
particular two members with the same (member_type, reference) pair but
different roles are both kept, in order. -/
theorem relation_members_preserved :
    (∀ (info : ElementInfo) (ms : List RelationMember),
        (Relation.mk info ms).members = ms)
      ∧ (Relation.mk (ElementInfo.create 7)
            [⟨.way, 5, "outer"⟩, ⟨.way, 5, "inner"⟩, ⟨.way, 5, "outer"⟩]).members
          = [⟨.way, 5, "outer"⟩, ⟨.way, 5, "inner"⟩, ⟨.way, 5, "outer"⟩] :=
  ⟨fun _ _ => rfl, rfl⟩

/-- C10: the coordinate encoder is total on every floating-point input:
when the input times 1e7 lies above the i32 range the cast saturates to
i32Max, below the range it saturates to i32Min, and a NaN input yields 0. -/
theorem coord_ftoi_total_saturating :
    (∀ q : ℚ, (i32Max : ℚ) < q * 10000000 → Node.coord_ftoi (.finite q) = i32Max)
      ∧ (∀ q : ℚ, q * 10000000 < (i32Min : ℚ) → Node.coord_ftoi (.finite q) = i32Min)
      ∧ Node.coord_ftoi .nan = 0 := by
  refine ⟨fun q h => ?_, fun q h => ?_, rfl⟩
  · have h0 : (0 : ℚ) ≤ q * 10000000 := le_trans (by norm_num [i32Max]) h.le
    have hf : i32Max ≤ ⌊q * 10000000⌋ := Int.le_floor.mpr h.le
    simp only [Node.coord_ftoi, castF64toI32, mulTenMillion, truncQ, if_pos h0]
    rw [min_eq_left hf, max_eq_right (by norm_num [i32Max, i32Min])]
  · have h0 : ¬(0 : ℚ) ≤ q * 10000000 := by
      intro hc
      exact absurd (lt_of_le_of_lt hc h) (by norm_num [i32Min])
    have hc : ⌈q * 10000000⌉ ≤ i32Min := Int.ceil_le.mpr h.le
    simp only [Node.coord_ftoi, castF64toI32, mulTenMillion, truncQ, if_neg h0]
    rw [min_eq_right (le_trans hc (by norm_num [i32Max, i32Min])), max_eq_left hc]

/-- Witness for `coord_ftoi_total_saturating` at the inputs 1000 and
-1000, whose products with 1e7 lie outside the i32 range. -/
theorem coord_ftoi_total_saturating_witness :
    Node.coord_ftoi (.finite 1000) = i32Max
      ∧ Node.coord_ftoi (.finite (-1000)) = i32Min :=
  ⟨coord_ftoi_total_saturating.1 1000 (by norm_num [i32Max]),
   coord_ftoi_total_saturating.2.1 (-1000) (by norm_num [i32Min])⟩
